import Mathlib

/-!
Shallow embedding of the ZKTeco device simulator (`zk_simulator.py`) and
proofs of the frozen claims about it.  Bytes are modelled as natural
numbers (values 0–255 on the wire); byte strings as `List Nat`.  Machine
arithmetic is `Nat`/`Int` with explicit `% 2^w` where the source packs
fixed-width fields.
-/

namespace ZKSim

/-- A byte string (Python `bytes`). -/
abbrev Bytes := List Nat

/-- ASCII encoding of a string literal (Python `str.encode()` on ASCII data). -/
def asciiBytes (s : String) : Bytes := s.toList.map Char.toNat

/-- `struct.pack('<H', n)`: two little-endian bytes. -/
def le16 (n : Nat) : Bytes := [n % 256, n / 256 % 256]

/-- `struct.pack('<I', n)`: four little-endian bytes. -/
def le32 (n : Nat) : Bytes := [n % 256, n / 256 % 256, n / 65536 % 256, n / 16777216 % 256]

/-- `struct.pack('<i', v)`: four little-endian two's-complement bytes. -/
def le32i (v : Int) : Bytes := le32 (v % 4294967296).toNat

/-- `struct.pack('<b', v)` as a single byte (two's complement). -/
def byteI8 (v : Int) : Nat := (v % 256).toNat

/-- Read one byte at index `i` (indices are always in range at use sites). -/
def readByte (l : Bytes) (i : Nat) : Nat := l.getD i 0

/-- `struct.unpack('<H', ...)` at byte offset `i`. -/
def readLE16 (l : Bytes) (i : Nat) : Nat := readByte l i + 256 * readByte l (i + 1)

/-- `struct.unpack('<I', ...)` at byte offset `i`. -/
def readLE32 (l : Bytes) (i : Nat) : Nat :=
  readByte l i + 256 * readByte l (i + 1) + 65536 * readByte l (i + 2) +
    16777216 * readByte l (i + 3)

/-- `struct.unpack('<b', ...)`: signed byte at offset `i`. -/
def readI8 (l : Bytes) (i : Nat) : Int :=
  let b := readByte l i
  if b < 128 then (b : Int) else (b : Int) - 256

/-- `struct.unpack('<h', ...)`: signed 16-bit at offset `i`. -/
def readI16 (l : Bytes) (i : Nat) : Int :=
  let v := readLE16 l i
  if v < 32768 then (v : Int) else (v : Int) - 65536

/-- `struct.unpack('<i', ...)`: signed 32-bit at offset `i`. -/
def readI32 (l : Bytes) (i : Nat) : Int :=
  let v := readLE32 l i
  if v < 2147483648 then (v : Int) else (v : Int) - 4294967296

/-- Python slice `l[a:b]` (with natural bounds). -/
def slice (l : Bytes) (a b : Nat) : Bytes := (l.drop a).take (b - a)

/-- Python `bytes.rstrip(b'\x00')`. -/
def rstrip0 (l : Bytes) : Bytes := (l.reverse.dropWhile (fun b => b == 0)).reverse

/-- Python `bytes.ljust(n, b'\x00')`. -/
def rightPad (n : Nat) (l : Bytes) : Bytes := l ++ List.replicate (n - l.length) 0

/-- Python `str(n).encode()` for a natural number: decimal ASCII digits. -/
def decBytes (n : Nat) : Bytes := (Nat.toDigits 10 n).map Char.toNat

/-- Python `bytes.isdigit()`: nonempty and all ASCII digits. -/
def isDigits (l : Bytes) : Bool := !l.isEmpty && l.all (fun b => 48 ≤ b && b ≤ 57)

/-- Python `int(s)` for a digit string. -/
def digitsToNat (l : Bytes) : Nat := l.foldl (fun a b => a * 10 + (b - 48)) 0

/-! ## Checksum (`create_checksum`) -/

/-- The word-summing `while length > 1` loop of `create_checksum`: consume two
bytes at a time as a little-endian 16-bit word, subtracting `0xFFFF` once after
each addition that overflows; a final odd byte is added without that check. -/
def sumWords : Bytes → Nat → Nat
  | b0 :: b1 :: rest, acc =>
      let acc' := acc + (b0 + 256 * b1)
      sumWords rest (if 65535 < acc' then acc' - 65535 else acc')
  | [b], acc => acc + b
  | [], acc => acc

/-- Fuel-driven body of the `while checksum > USHRT_MAX` loop of
`create_checksum` (each iteration removes 65535, so `n` itself is always
enough fuel; the structural recursion keeps the function kernel-reducible). -/
def foldCarryAux : Nat → Nat → Nat
  | 0, n => n
  | fuel + 1, n => if 65535 < n then foldCarryAux fuel (n - 65535) else n

/-- The `while checksum > USHRT_MAX` loop of `create_checksum`. -/
def foldCarry (n : Nat) : Nat := foldCarryAux n n

/-- Fuel-driven body of the `while checksum < 0` loop of `create_checksum`
(each iteration adds 65535, so `(-i).toNat + 1` is always enough fuel). -/
def fixNegAux : Nat → Int → Int
  | 0, i => i
  | fuel + 1, i => if i < 0 then fixNegAux fuel (i + 65535) else i

/-- The `while checksum < 0` loop of `create_checksum` (after bitwise NOT). -/
def fixNeg (i : Int) : Int := fixNegAux ((-i).toNat + 1) i

/-- `create_checksum` as a 16-bit value: fold the word sum, take the bitwise
NOT (`~c = -(c+1)` on Python ints), then re-add `0xFFFF` while negative. -/
def create_checksum_val (packet : Bytes) : Nat :=
  (fixNeg (-(foldCarry (sumWords packet 0) : Int) - 1)).toNat

/-- `create_checksum` proper: the value packed with `struct.pack('H', ...)`. -/
def create_checksum (packet : Bytes) : Bytes := le16 (create_checksum_val packet)

/-- `create_header`: checksum the packet with a zero checksum field, then emit
`<cmd:2><checksum:2><session:2><reply:2>` followed by the payload. -/
def create_header (command session_id reply_id : Nat) (data : Bytes) : Bytes :=
  let buf := le16 command ++ le16 0 ++ le16 session_id ++ le16 reply_id ++ data
  let checksum := readLE16 (create_checksum buf) 0
  le16 command ++ le16 checksum ++ le16 session_id ++ le16 reply_id ++ data

/-- `create_tcp_top`: stream envelope `0x5050 0x7D82 <len:4 LE>` + inner packet. -/
def create_tcp_top (packet : Bytes) : Bytes :=
  le16 20560 ++ le16 32130 ++ le32 packet.length ++ packet

/-! ## Timestamp codec (`encode_time` / `decode_time`) -/

/-- A Python `datetime` value (only the six fields the simulator uses). -/
structure DateTime where
  year : Nat
  month : Nat
  day : Nat
  hour : Nat
  minute : Nat
  second : Nat
deriving DecidableEq, Repr

/-- Day count of a month, with the Gregorian leap rule (as Python `datetime`). -/
def daysInMonth (y m : Nat) : Nat :=
  if m = 2 then (if y % 4 = 0 ∧ (y % 100 ≠ 0 ∨ y % 400 = 0) then 29 else 28)
  else if m = 4 ∨ m = 6 ∨ m = 9 ∨ m = 11 then 30 else 31

/-- Validity of the fields per the `datetime` constructor (which raises on
out-of-range fields, e.g. February 30). -/
def isValidDateTime (dt : DateTime) : Bool :=
  decide (1 ≤ dt.year) && decide (dt.year ≤ 9999) &&
  decide (1 ≤ dt.month) && decide (dt.month ≤ 12) &&
  decide (1 ≤ dt.day) && decide (dt.day ≤ daysInMonth dt.year dt.month) &&
  decide (dt.hour ≤ 23) && decide (dt.minute ≤ 59) && decide (dt.second ≤ 59)

/-- The 32-bit value computed by `encode_time`. -/
def encode_time_val (dt : DateTime) : Nat :=
  ((dt.year % 100) * 12 * 31 + (dt.month - 1) * 31 + dt.day - 1) * (24 * 60 * 60) +
    (dt.hour * 60 + dt.minute) * 60 + dt.second

/-- `encode_time`: the value packed with `struct.pack('I', ...)`. -/
def encode_time (dt : DateTime) : Bytes := le32 (encode_time_val dt)

/-- `decode_time`: peel seconds/minutes/hours, then day base 31, month base 12,
year offset 2000; `none` models the `datetime` constructor raising. -/
def decode_time (t : Nat) : Option DateTime :=
  let second := t % 60
  let t1 := t / 60
  let minute := t1 % 60
  let t2 := t1 / 60
  let hour := t2 % 24
  let t3 := t2 / 24
  let day := t3 % 31 + 1
  let t4 := t3 / 31
  let month := t4 % 12 + 1
  let t5 := t4 / 12
  let year := t5 + 2000
  let dt : DateTime := ⟨year, month, day, hour, minute, second⟩
  if isValidDateTime dt then some dt else none

/-! ## Device model -/

/-- A user record `(uid, privilege, password, name, card, group_id, user_id)`.
After any write path, `group_id` and `user_id` are stored as integers
(the 72-byte path converts the ASCII `user_id` with `int(...)`). -/
structure User where
  uid : Nat
  privilege : Nat
  password : Bytes
  name : Bytes
  card : Nat
  group_id : Nat
  user_id : Nat
deriving DecidableEq, Repr

/-- A fingerprint template `(uid, fid, valid, template_data)`; `fid` is signed
(parsed with `struct` format `'b'`). -/
structure Template where
  uid : Nat
  fid : Int
  valid : Nat
  tmpl : Bytes
deriving DecidableEq, Repr

/-- An attendance record `(user_id, timestamp_encoded, status, punch, uid)`.
No handler ever appends to the attendance list, so it stays empty. -/
structure AttRecord where
  user_id : Nat
  timestamp : Bytes
  status : Nat
  punch : Nat
  uid : Nat
deriving DecidableEq, Repr

/-- The mutable state of `ZKSimulator` (constants such as the firmware string
and the three capacities are immutable attributes, kept as plain definitions
below). -/
structure SimState where
  password : Nat
  ip : String
  session_id : Nat
  is_authenticated : Bool
  users : List User
  templates : List Template
  attendance_records : List AttRecord
  registered_events : Nat
  enrollment_mode : Bool
  enrollment_uid : Nat
  enrollment_fid : Int
  data_buffer : Bytes
  users_count : Nat
  fingers_count : Nat
  records_count : Nat
deriving DecidableEq, Repr

def firmware_version : String := "Ver 6.60 Nov 13 2019"
def serial_number : String := "DGD9190019050335743"
def platform_name : String := "ZEM560"
def device_name : String := "ZKTeco Device"
def mac_address : String := "00:17:61:C8:EC:17"
def users_capacity : Nat := 3000
def fingers_capacity : Nat := 10000
def records_capacity : Nat := 100000

/-- The three seeded users of `ZKSimulator.__init__`. -/
def initUsers : List User :=
  [⟨1, 0, [], asciiBytes "Admin", 0, 0, 1⟩,
   ⟨2, 0, asciiBytes "12345", asciiBytes "User001", 123456, 0, 2⟩,
   ⟨3, 0, [], asciiBytes "User002", 234567, 0, 3⟩]

/-- `ZKSimulator.__init__`: note `users_count` is computed as `len(users)`,
while `fingers_count` and `records_count` are the literals 5 and 150 even
though the template and attendance lists start empty. -/
def initState (password : Nat) (ip : String) : SimState where
  password := password
  ip := ip
  session_id := 0
  is_authenticated := false
  users := initUsers
  templates := []
  attendance_records := []
  registered_events := 0
  enrollment_mode := false
  enrollment_uid := 0
  enrollment_fid := 0
  data_buffer := []
  users_count := initUsers.length
  fingers_count := 5
  records_count := 150

/-! ## User record codecs -/

/-- The ZK6 28-byte decode of `handle_user_wrq` (format `'<HB5s8sIxBHI'`):
`uid:2, privilege:1, password:5, name:8, card:4, pad:1, group_id:1, tz:2,
user_id:4`; the `tz` field is dropped. -/
def decode_user_28 (d : Bytes) : User where
  uid := readLE16 d 0
  privilege := readByte d 2
  password := rstrip0 (slice d 3 8)
  name := rstrip0 (slice d 8 16)
  card := readLE32 d 16
  group_id := readByte d 21
  user_id := readLE32 d 24

/-- The ZK8 72-byte decode (format `'<HB8s24sIx7sx24s'`): `uid:2, privilege:1,
password:8, name:24, card:4, pad:1, group_id:7, pad:1, user_id:24`; group is
stored as the integer 0 and `user_id` as `int(...)` of its digits (falling
back to `uid` when not all digits). -/
def decode_user_72 (d : Bytes) : User :=
  let user_id_str := rstrip0 (slice d 48 72)
  { uid := readLE16 d 0
    privilege := readByte d 2
    password := rstrip0 (slice d 3 11)
    name := rstrip0 (slice d 11 35)
    card := readLE32 d 35
    group_id := 0
    user_id := if isDigits user_id_str then digitsToNat user_id_str else readLE16 d 0 }

/-- The update-or-add loop used by `handle_user_wrq` and
`handle_save_usertemps`: replace every record with a matching uid, else
append. -/
def upsert_by_uid (users : List User) (nu : User) : List User :=
  let mapped := users.map fun u => if u.uid == nu.uid then nu else u
  if users.any (fun u => u.uid == nu.uid) then mapped else mapped ++ [nu]

/-- The 72-byte user packing of `handle_usertemp_rrq`
(format `'<HB8s24sIx7sx24s'`). -/
def pack_user_72 (u : User) : Bytes :=
  let password_bytes := (rightPad 8 u.password).take 8
  let name_bytes := rightPad 24 (u.name.take 24)
  let user_id_str := rightPad 24 ((decBytes u.user_id).take 24)
  let group_id_str := rightPad 7 ((decBytes u.group_id).take 7)
  le16 u.uid ++ [u.privilege % 256] ++ password_bytes ++ name_bytes ++ le32 u.card ++
    [0] ++ group_id_str ++ [0] ++ user_id_str

/-- The template list packing of `handle_db_rrq`
(entry `'<HHbb'` + blob). -/
def pack_template (t : Template) : Bytes :=
  le16 (t.tmpl.length + 6) ++ le16 t.uid ++ [byteI8 t.fid] ++ [t.valid % 256] ++ t.tmpl

/-- The 40-byte attendance packing of `handle_attlog_rrq`
(format `'<H24sB4sB8s'`). -/
def pack_attrec (r : AttRecord) : Bytes :=
  le16 r.uid ++ rightPad 24 ((decBytes r.user_id).take 24) ++ [r.status % 256] ++
    rightPad 4 (r.timestamp.take 4) ++ [r.punch % 256] ++ List.replicate 8 0

/-! ## Command codes used below (constants of the source). -/

def CMD_ACK_OK : Nat := 2000
def CMD_ACK_ERROR : Nat := 2001
def CMD_ACK_UNAUTH : Nat := 2005
def CMD_DATA : Nat := 1501

/-! ## Handlers

Each handler is `SimState → session → reply → payload → SimState × Bytes`
(pure-response handlers drop the state or payload argument as the source
does).  Only `handle_set_time` can raise, hence its `Option` result. -/

/-- `handle_connect`. -/
def handle_connect (s : SimState) (session_id reply_id : Nat) : SimState × Bytes :=
  let sid := if session_id ≠ 0 then session_id else 1000
  let s1 := { s with session_id := sid }
  if s.password = 0 then
    ({ s1 with is_authenticated := true }, create_header CMD_ACK_OK sid reply_id [])
  else
    (s1, create_header CMD_ACK_UNAUTH sid reply_id [])

/-- `handle_auth`: accept any attempt. -/
def handle_auth (s : SimState) (session_id reply_id : Nat) : SimState × Bytes :=
  ({ s with is_authenticated := true, session_id := session_id },
   create_header CMD_ACK_OK session_id reply_id [])

/-- `handle_exit`. -/
def handle_exit (s : SimState) (session_id reply_id : Nat) : SimState × Bytes :=
  ({ s with is_authenticated := false }, create_header CMD_ACK_OK session_id reply_id [])

/-- `handle_get_version`. -/
def handle_get_version (s : SimState) (session_id reply_id : Nat) : SimState × Bytes :=
  (s, create_header CMD_ACK_OK session_id reply_id (asciiBytes firmware_version ++ [0]))

/-- `handle_get_time` (parameterised by the wall clock `now`). -/
def handle_get_time (s : SimState) (now : DateTime) (session_id reply_id : Nat) :
    SimState × Bytes :=
  (s, create_header CMD_ACK_OK session_id reply_id (encode_time now))

/-- `handle_set_time`: decodes a 4-byte payload only "to verify it"; the
`datetime` constructor inside `decode_time` can raise, which aborts the
handler before any response is built (`none`). -/
def handle_set_time (s : SimState) (session_id reply_id : Nat) (data : Bytes) :
    Option (SimState × Bytes) :=
  if 4 ≤ data.length then
    match decode_time (readLE32 data 0) with
    | none => none
    | some _ => some (s, create_header CMD_ACK_OK session_id reply_id [])
  else some (s, create_header CMD_ACK_OK session_id reply_id [])

/-- `handle_options_rrq`.  Option names are ASCII; the byte-level comparison
below models `rstrip(b'\x00')` followed by the UTF-8 decode and string
comparison of the source. -/
def handle_options_rrq (s : SimState) (session_id reply_id : Nat) (data : Bytes) :
    SimState × Bytes :=
  let nm := rstrip0 data
  let response_data : Bytes :=
    if nm == asciiBytes "~SerialNumber" then asciiBytes ("~SerialNumber=" ++ serial_number) ++ [0]
    else if nm == asciiBytes "~Platform" then asciiBytes ("~Platform=" ++ platform_name) ++ [0]
    else if nm == asciiBytes "MAC" then asciiBytes ("MAC=" ++ mac_address) ++ [0]
    else if nm == asciiBytes "~DeviceName" then asciiBytes ("~DeviceName=" ++ device_name) ++ [0]
    else if nm == asciiBytes "ZKFaceVersion" then asciiBytes "ZKFaceVersion=0" ++ [0]
    else if nm == asciiBytes "~ZKFPVersion" then asciiBytes "~ZKFPVersion=10" ++ [0]
    else if nm == asciiBytes "IPAddress" then asciiBytes ("IPAddress=" ++ s.ip) ++ [0]
    else if nm == asciiBytes "NetMask" then asciiBytes "NetMask=255.255.255.0" ++ [0]
    else if nm == asciiBytes "GATEIPAddress" then asciiBytes "GATEIPAddress=192.168.1.1" ++ [0]
    else if nm == asciiBytes "~ExtendFmt" then asciiBytes "~ExtendFmt=0" ++ [0]
    else if nm == asciiBytes "~UserExtFmt" then asciiBytes "~UserExtFmt=0" ++ [0]
    else if nm == asciiBytes "FaceFunOn" then asciiBytes "FaceFunOn=0" ++ [0]
    else if nm == asciiBytes "CompatOldFirmware" then asciiBytes "CompatOldFirmware=0" ++ [0]
    else []
  (s, create_header CMD_ACK_OK session_id reply_id response_data)

/-- `handle_options_wrq`: always OK, no state effect. -/
def handle_options_wrq (s : SimState) (session_id reply_id : Nat) : SimState × Bytes :=
  (s, create_header CMD_ACK_OK session_id reply_id [])

/-- The `'20i'`+`'3i'` payload of `handle_get_free_sizes`: twenty signed
32-bit fields followed by three face-subsystem zeros. -/
def free_sizes_payload (s : SimState) : Bytes :=
  le32i 0 ++ le32i 0 ++ le32i 0 ++ le32i 0 ++
  le32i s.users_count ++ le32i 0 ++ le32i s.fingers_count ++ le32i 0 ++
  le32i s.records_count ++ le32i 0 ++ le32i 0 ++ le32i 0 ++
  le32i 0 ++ le32i 0 ++ le32i fingers_capacity ++ le32i users_capacity ++
  le32i records_capacity ++
  le32i ((fingers_capacity : Int) - (s.fingers_count : Int)) ++
  le32i ((users_capacity : Int) - (s.users_count : Int)) ++
  le32i ((records_capacity : Int) - (s.records_count : Int)) ++
  le32i 0 ++ le32i 0 ++ le32i 0

/-- `handle_get_free_sizes`. -/
def handle_get_free_sizes (s : SimState) (session_id reply_id : Nat) : SimState × Bytes :=
  (s, create_header CMD_ACK_OK session_id reply_id (free_sizes_payload s))

/-- `handle_usertemp_rrq`: DATA frame with 4-byte total size + 72-byte user
records. -/
def handle_usertemp_rrq (s : SimState) (session_id reply_id : Nat) : SimState × Bytes :=
  let user_data := s.users.foldl (fun acc u => acc ++ pack_user_72 u) []
  let full_data := le32 user_data.length ++ user_data
  (s, create_header CMD_DATA session_id reply_id full_data)

/-- `handle_free_data`. -/
def handle_free_data (s : SimState) (session_id reply_id : Nat) : SimState × Bytes :=
  (s, create_header CMD_ACK_OK session_id reply_id [])

/-- The user packing duplicated verbatim inside `handle_prepare_buffer`
(`fct == FCT_USER` branch). -/
def pack_user_72_pb (u : User) : Bytes :=
  let password_bytes := (rightPad 8 u.password).take 8
  let name_bytes := rightPad 24 (u.name.take 24)
  let user_id_str := rightPad 24 ((decBytes u.user_id).take 24)
  let group_id_str := rightPad 7 ((decBytes u.group_id).take 7)
  le16 u.uid ++ [u.privilege % 256] ++ password_bytes ++ name_bytes ++ le32 u.card ++
    [0] ++ group_id_str ++ [0] ++ user_id_str

/-- The template packing duplicated inside `handle_prepare_buffer`
(`fct == FCT_FINGERTMP` branch). -/
def pack_template_pb (t : Template) : Bytes :=
  le16 (t.tmpl.length + 6) ++ le16 t.uid ++ [byteI8 t.fid] ++ [t.valid % 256] ++ t.tmpl

/-- The attendance packing duplicated inside `handle_prepare_buffer`
(`fct == FCT_ATTLOG` branch). -/
def pack_attrec_pb (r : AttRecord) : Bytes :=
  le16 r.uid ++ rightPad 24 ((decBytes r.user_id).take 24) ++ [r.status % 256] ++
    rightPad 4 (r.timestamp.take 4) ++ [r.punch % 256] ++ List.replicate 8 0

/-- `handle_prepare_buffer`: parse the 11-byte `'<bhii'` tuple and answer by
`fct` (5 = users, 2 = templates, 1 = attendance, other = empty DATA);
shorter payloads get ERROR. -/
def handle_prepare_buffer (s : SimState) (session_id reply_id : Nat) (data : Bytes) :
    SimState × Bytes :=
  if 11 ≤ data.length then
    let fct := readI32 data 3
    if fct = 5 then
      let user_data := s.users.foldl (fun acc u => acc ++ pack_user_72_pb u) []
      let full_data := le32 user_data.length ++ user_data
      (s, create_header CMD_DATA session_id reply_id full_data)
    else if fct = 2 then
      let template_data := s.templates.foldl (fun acc t => acc ++ pack_template_pb t) []
      let full_data := le32 template_data.length ++ template_data
      (s, create_header CMD_DATA session_id reply_id full_data)
    else if fct = 1 then
      let att_data := s.attendance_records.foldl (fun acc r => acc ++ pack_attrec_pb r) []
      let full_data := le32 att_data.length ++ att_data
      (s, create_header CMD_DATA session_id reply_id full_data)
    else
      (s, create_header CMD_DATA session_id reply_id (le32 0))
  else
    (s, create_header CMD_ACK_ERROR session_id reply_id [])

/-- `handle_reg_event`. -/
def handle_reg_event (s : SimState) (session_id reply_id : Nat) (data : Bytes) :
    SimState × Bytes :=
  if 4 ≤ data.length then
    ({ s with registered_events := readLE32 data 0 },
     create_header CMD_ACK_OK session_id reply_id [])
  else
    ({ s with registered_events := 0 }, create_header CMD_ACK_OK session_id reply_id [])

/-- `handle_start_verify`. -/
def handle_start_verify (s : SimState) (session_id reply_id : Nat) : SimState × Bytes :=
  (s, create_header CMD_ACK_OK session_id reply_id [])

/-- `handle_get_pin_width`: OK with the single byte 5. -/
def handle_get_pin_width (s : SimState) (session_id reply_id : Nat) : SimState × Bytes :=
  (s, create_header CMD_ACK_OK session_id reply_id [5])

/-- `handle_unlock`: the payload is only printed. -/
def handle_unlock (s : SimState) (session_id reply_id : Nat) : SimState × Bytes :=
  (s, create_header CMD_ACK_OK session_id reply_id [])

/-- `handle_test_voice`: the payload is only printed. -/
def handle_test_voice (s : SimState) (session_id reply_id : Nat) : SimState × Bytes :=
  (s, create_header CMD_ACK_OK session_id reply_id [])

/-- `handle_refresh_data`. -/
def handle_refresh_data (s : SimState) (session_id reply_id : Nat) : SimState × Bytes :=
  (s, create_header CMD_ACK_OK session_id reply_id [])

/-- `handle_user_wrq`.  The source tests `len(data) >= 28` BEFORE
`len(data) >= 72`, so the 72-byte branch is unreachable (kept verbatim),
and a payload shorter than 28 bytes falls through to the OK response with
no state change. -/
def handle_user_wrq (s : SimState) (session_id reply_id : Nat) (data : Bytes) :
    SimState × Bytes :=
  if 28 ≤ data.length then
    let users' := upsert_by_uid s.users (decode_user_28 data)
    ({ s with users := users', users_count := users'.length },
     create_header CMD_ACK_OK session_id reply_id [])
  else if 72 ≤ data.length then
    let users' := upsert_by_uid s.users (decode_user_72 data)
    ({ s with users := users', users_count := users'.length },
     create_header CMD_ACK_OK session_id reply_id [])
  else
    (s, create_header CMD_ACK_OK session_id reply_id [])

/-- `handle_delete_user`: remove the user and all its templates, recompute
both counts. -/
def handle_delete_user (s : SimState) (session_id reply_id : Nat) (data : Bytes) :
    SimState × Bytes :=
  if 2 ≤ data.length then
    let uid := readLE16 data 0
    let users' := s.users.filter fun u => u.uid != uid
    let templates' := s.templates.filter fun t => t.uid != uid
    ({ s with users := users', templates := templates',
              users_count := users'.length, fingers_count := templates'.length },
     create_header CMD_ACK_OK session_id reply_id [])
  else
    (s, create_header CMD_ACK_OK session_id reply_id [])

/-- `handle_delete_usertemp`. -/
def handle_delete_usertemp (s : SimState) (session_id reply_id : Nat) (data : Bytes) :
    SimState × Bytes :=
  if 3 ≤ data.length then
    let uid := readLE16 data 0
    let temp_id := readI8 data 2
    let templates' := s.templates.filter fun t => !(t.uid == uid && t.fid == temp_id)
    ({ s with templates := templates', fingers_count := templates'.length },
     create_header CMD_ACK_OK session_id reply_id [])
  else
    (s, create_header CMD_ACK_OK session_id reply_id [])

/-- `handle_get_usertemp`: DATA with the first matching template's blob
followed by six zero bytes, ERROR when absent or the payload is short. -/
def handle_get_usertemp (s : SimState) (session_id reply_id : Nat) (data : Bytes) :
    SimState × Bytes :=
  if 3 ≤ data.length then
    let uid := readLE16 data 0
    let temp_id := readI8 data 2
    match s.templates.find? (fun t => t.uid == uid && t.fid == temp_id) with
    | some t =>
        (s, create_header CMD_DATA session_id reply_id (t.tmpl ++ List.replicate 6 0))
    | none => (s, create_header CMD_ACK_ERROR session_id reply_id [])
  else
    (s, create_header CMD_ACK_ERROR session_id reply_id [])

/-- `handle_db_rrq`: DATA with 4-byte total size + packed templates. -/
def handle_db_rrq (s : SimState) (session_id reply_id : Nat) : SimState × Bytes :=
  let template_data := s.templates.foldl (fun acc t => acc ++ pack_template t) []
  let full_data := le32 template_data.length ++ template_data
  (s, create_header CMD_DATA session_id reply_id full_data)

/-- `handle_attlog_rrq`: DATA with 4-byte total size + 40-byte records. -/
def handle_attlog_rrq (s : SimState) (session_id reply_id : Nat) : SimState × Bytes :=
  let att_data := s.attendance_records.foldl (fun acc r => acc ++ pack_attrec r) []
  let full_data := le32 att_data.length ++ att_data
  (s, create_header CMD_DATA session_id reply_id full_data)

/-- `handle_start_enroll`.  The TCP branch compares `str(u[6])` with the
decoded `user_id` (modelled at byte level for ASCII data); `int(user_id)`
succeeds on digit strings and otherwise raises into the `except` that
defaults the uid to 1 (signed literals are not modelled). -/
def handle_start_enroll (s : SimState) (session_id reply_id : Nat) (data : Bytes) :
    SimState × Bytes :=
  if 26 ≤ data.length then
    let user_id := rstrip0 (data.take 24)
    let temp_id := readI8 data 24
    let uid :=
      match s.users.find? (fun u => decBytes u.user_id == user_id) with
      | some u => u.uid
      | none => if isDigits user_id then digitsToNat user_id else 1
    ({ s with enrollment_mode := true, enrollment_uid := uid, enrollment_fid := temp_id },
     create_header CMD_ACK_OK session_id reply_id [])
  else if 5 ≤ data.length then
    ({ s with enrollment_mode := true, enrollment_uid := readLE32 data 0,
              enrollment_fid := readI8 data 4 },
     create_header CMD_ACK_OK session_id reply_id [])
  else
    (s, create_header CMD_ACK_OK session_id reply_id [])

/-- `handle_cancel_capture`. -/
def handle_cancel_capture (s : SimState) (session_id reply_id : Nat) : SimState × Bytes :=
  ({ s with enrollment_mode := false, enrollment_uid := 0, enrollment_fid := 0 },
   create_header CMD_ACK_OK session_id reply_id [])

/-- `handle_prepare_data`: reset the upload scratch. -/
def handle_prepare_data (s : SimState) (session_id reply_id : Nat) (data : Bytes) :
    SimState × Bytes :=
  if 4 ≤ data.length then
    ({ s with data_buffer := [] }, create_header CMD_ACK_OK session_id reply_id [])
  else
    (s, create_header CMD_ACK_ERROR session_id reply_id [])

/-- `handle_data_packet`: append to the upload scratch. -/
def handle_data_packet (s : SimState) (session_id reply_id : Nat) (data : Bytes) :
    SimState × Bytes :=
  ({ s with data_buffer := s.data_buffer ++ data },
   create_header CMD_ACK_OK session_id reply_id [])

/-- `handle_read_buffer`. -/
def handle_read_buffer (s : SimState) (session_id reply_id : Nat) (data : Bytes) :
    SimState × Bytes :=
  if 8 ≤ data.length then
    (s, create_header CMD_DATA session_id reply_id (le32 0))
  else
    (s, create_header CMD_ACK_ERROR session_id reply_id [])

/-! ## Bulk upload (`handle_save_usertemps`) -/

/-- The `while len(user_data) >= packet_size` loop: decode a fixed-size record
and upsert it, 72-byte layout when `is72` (the source computes `packet_size`
as 72 or 28). -/
def parse_users_loop (ud : Bytes) (is72 : Bool) (users : List User) : List User :=
  if (if is72 then 72 else 28) ≤ ud.length then
    let nu := if is72 then decode_user_72 ud else decode_user_28 ud
    parse_users_loop (ud.drop (if is72 then 72 else 28)) is72 (upsert_by_uid users nu)
  else users
termination_by ud.length
decreasing_by
  rename_i h
  cases is72 <;> simp at h ⊢ <;> omega

/-- The `while len(table_data) >= 8` loop: 8-byte entries `'<bHbI'`; type-2
entries yield a template whose blob spans `tstart` to the next entry's
`tstart` (or the end of the fingerprint block). -/
def parse_table (td fp : Bytes) : List Template :=
  if 8 ≤ td.length then
    let entry_type := readI8 td 0
    let uid := readLE16 td 1
    let fnum := readI8 td 3
    let tstart := readLE32 td 4
    let rest := td.drop 8
    let here : List Template :=
      if entry_type = 2 then
        let fid := fnum - 16
        let tend := if 8 ≤ rest.length then readLE32 rest 4 else fp.length
        [⟨uid, fid, 1, slice fp tstart tend⟩]
      else []
    here ++ parse_table rest fp
  else []
termination_by td.length
decreasing_by simp only [List.length_drop]; omega

/-- Replace-then-append applied for each parsed template
(`templates = [t for t in templates if not (...)]; templates.append(tmpl)`). -/
def apply_template_upserts (templates toAdd : List Template) : List Template :=
  toAdd.foldl
    (fun ts tm => (ts.filter fun t => !(t.uid == tm.uid && t.fid == tm.fid)) ++ [tm])
    templates

/-- `handle_save_usertemps`: split the scratch buffer by its
`{upack:4, table:4, fpack:4}` prefix, merge users and templates, recompute
the counts that were touched, clear the scratch, respond OK.  (The
`len(data) >= 10` parse of the request payload only feeds a print.) -/
def handle_save_usertemps (s : SimState) (session_id reply_id : Nat) :
    SimState × Bytes :=
  let s1 :=
    if 12 ≤ s.data_buffer.length then
      let upack_size := readLE32 s.data_buffer 0
      let table_size := readLE32 s.data_buffer 4
      let fpack_size := readLE32 s.data_buffer 8
      let (users', users_count', offset1) :=
        if 0 < upack_size then
          let user_data := slice s.data_buffer 12 (12 + upack_size)
          let is72 := 72 ≤ upack_size ∧ upack_size % 72 = 0
          let new_users := parse_users_loop user_data (decide is72) s.users
          (new_users, new_users.length, 12 + upack_size)
        else (s.users, s.users_count, 12)
      let templates_to_add :=
        if 0 < table_size then
          let table_data := slice s.data_buffer offset1 (offset1 + table_size)
          let fpack_data :=
            slice s.data_buffer (offset1 + table_size) (offset1 + table_size + fpack_size)
          parse_table table_data fpack_data
        else []
      let templates' := apply_template_upserts s.templates templates_to_add
      { s with users := users', users_count := users_count',
               templates := templates', fingers_count := templates'.length,
               data_buffer := [] }
    else { s with data_buffer := [] }
  (s1, create_header CMD_ACK_OK session_id reply_id [])

/-- The state mutation at the end of a successful
`simulate_enrollment_events` run: store a 512-zero-byte template under the
enrollment key (replacing any existing one), recompute the template count,
leave enrollment mode. -/
def enroll_complete (s : SimState) : SimState :=
  let templates' :=
    (s.templates.filter fun t => !(t.uid == s.enrollment_uid && t.fid == s.enrollment_fid))
      ++ [⟨s.enrollment_uid, s.enrollment_fid, 1, List.replicate 512 0⟩]
  { s with templates := templates', fingers_count := templates'.length,
           enrollment_mode := false }

/-! ## Dispatch and framing (`handle_packet`) -/

/-- The dispatcher of `handle_packet`, in the source's `elif` order.  Only
`CMD_SET_TIME` can raise (`none`).  The `_CMD_PREPARE_BUFFER` arm repeats
code 1503 and is therefore dead, as in the source. -/
def dispatch (s : SimState) (now : DateTime) (command session_id reply_id : Nat)
    (data : Bytes) : Option (SimState × Bytes) :=
  if command = 1000 then some (handle_connect s session_id reply_id)
  else if command = 1102 then some (handle_auth s session_id reply_id)
  else if command = 1001 then some (handle_exit s session_id reply_id)
  else if command = 1002 then some (s, create_header CMD_ACK_OK session_id reply_id [])
  else if command = 1003 then some (s, create_header CMD_ACK_OK session_id reply_id [])
  else if command = 1100 then some (handle_get_version s session_id reply_id)
  else if command = 201 then some (handle_get_time s now session_id reply_id)
  else if command = 202 then handle_set_time s session_id reply_id data
  else if command = 11 then some (handle_options_rrq s session_id reply_id data)
  else if command = 12 then some (handle_options_wrq s session_id reply_id)
  else if command = 50 then some (handle_get_free_sizes s session_id reply_id)
  else if command = 9 then some (handle_usertemp_rrq s session_id reply_id)
  else if command = 1502 then some (handle_free_data s session_id reply_id)
  else if command = 1503 then some (handle_prepare_buffer s session_id reply_id data)
  else if command = 500 then some (handle_reg_event s session_id reply_id data)
  else if command = 60 then some (handle_start_verify s session_id reply_id)
  else if command = 69 then some (handle_get_pin_width s session_id reply_id)
  else if command = 31 then some (handle_unlock s session_id reply_id)
  else if command = 1017 then some (handle_test_voice s session_id reply_id)
  else if command = 8 then some (handle_user_wrq s session_id reply_id data)
  else if command = 18 then some (handle_delete_user s session_id reply_id data)
  else if command = 1013 then some (handle_refresh_data s session_id reply_id)
  else if command = 19 then some (handle_delete_usertemp s session_id reply_id data)
  else if command = 88 then some (handle_get_usertemp s session_id reply_id data)
  else if command = 7 then some (handle_db_rrq s session_id reply_id)
  else if command = 13 then some (handle_attlog_rrq s session_id reply_id)
  else if command = 61 then some (handle_start_enroll s session_id reply_id data)
  else if command = 62 then some (handle_cancel_capture s session_id reply_id)
  else if command = 1500 then some (handle_prepare_data s session_id reply_id data)
  else if command = 1501 then some (handle_data_packet s session_id reply_id data)
  else if command = 110 then some (handle_save_usertemps s session_id reply_id)
  else if command = 1504 then some (handle_read_buffer s session_id reply_id data)
  else some (s, create_header CMD_ACK_ERROR session_id reply_id [])

/-- The TCP-mode frame parsing of `handle_packet`: check length and the two
magic words, strip the 8-byte envelope (the envelope's 4-byte length field is
unpacked only for a print and never influences behaviour), then split the
inner 8-byte header.  `none` models the `return None, False` paths. -/
def parse_tcp (packet : Bytes) : Option (Nat × Nat × Nat × Bytes) :=
  if packet.length < 8 then none
  else if readLE16 packet 0 ≠ 20560 ∨ readLE16 packet 2 ≠ 32130 then none
  else
    let inner := packet.drop 8
    if inner.length < 8 then none
    else some (readLE16 inner 0, readLE16 inner 4, readLE16 inner 6, inner.drop 8)

/-- `handle_packet` in TCP mode: parse the frame, dispatch, wrap the response
in a stream envelope.  The outer `none` models an uncaught handler exception;
`some (s, none)` models the no-response paths. -/
def handle_packet (s : SimState) (now : DateTime) (packet : Bytes) :
    Option (SimState × Option Bytes) :=
  match parse_tcp packet with
  | none => some (s, none)
  | some (command, session_id, reply_id, data) =>
    match dispatch s now command session_id reply_id data with
    | none => none
    | some (s', response) => some (s', some (create_tcp_top response))

/-- States reachable from a fresh simulator by any sequence of handled
packets, plus the enrollment-completion mutation performed by the
background enrollment thread. -/
inductive Reach (password : Nat) (ip : String) : SimState → Prop where
  | init : Reach password ip (initState password ip)
  | step {s : SimState} (now : DateTime) (packet : Bytes) {s' : SimState}
      {r : Option Bytes} : Reach password ip s →
      handle_packet s now packet = some (s', r) → Reach password ip s'
  | enroll {s : SimState} : Reach password ip s → Reach password ip (enroll_complete s)

/-! ## Concrete inputs used by individual claims -/

/-- A 72-byte USER WRQ payload (bytes 50..121) on which the 28-byte and the
72-byte record layouts decode to visibly different records. -/
def p72c : Bytes := (List.range 72).map (fun i => 50 + i)

/-- A device state holding one template, key `(uid 1, finger 0)`, blob
`[0xAB]`. -/
def oneTemplateState : SimState :=
  { initState 0 "0.0.0.0" with templates := [⟨1, 0, 1, [171]⟩], fingers_count := 1 }

/-! # Claims -/

/-- **C1.** The spec requires USER WRQ to pick the record layout by payload
size, decoding a 72-byte payload with the 72-byte layout.  The code tests
`len(data) >= 28` before `len(data) >= 72`, so a 72-byte payload is decoded
with the 28-byte layout and the 72-byte branch is dead: on the concrete
72-byte payload `p72c` the stored record is the 28-byte-layout decode, which
differs from the 72-byte-layout decode the spec mandates. -/
theorem C1_user_wrq_layout_bug :
    72 ≤ p72c.length ∧
    handle_user_wrq (initState 0 "0.0.0.0") 0 0 p72c =
      ({ initState 0 "0.0.0.0" with
          users := initUsers ++ [decode_user_28 p72c],
          users_count := (initUsers ++ [decode_user_28 p72c]).length },
        create_header CMD_ACK_OK 0 0 []) ∧
    decode_user_28 p72c ≠ decode_user_72 p72c := by decide

/-- **C7 (counterexample).** The claim says a USER WRQ payload matching
neither layout (shorter than 28 bytes) is answered with ERROR; on the empty
payload the code answers OK, and the OK and ERROR acknowledgment frames are
distinct. -/
theorem C7_counterexample :
    (handle_user_wrq (initState 0 "0.0.0.0") 0 0 []).2 = create_header CMD_ACK_OK 0 0 [] ∧
    create_header CMD_ACK_OK 0 0 [] ≠ create_header CMD_ACK_ERROR 0 0 [] := by decide

/-- **C7 (amended).** For every USER WRQ request whose payload is shorter
than 28 bytes, the response is OK and the device state is unchanged. -/
theorem C7_short_user_wrq_ok (s : SimState) (session_id reply_id : Nat) (data : Bytes)
    (h : data.length < 28) :
    handle_user_wrq s session_id reply_id data =
      (s, create_header CMD_ACK_OK session_id reply_id []) := by
  have h1 : ¬ 28 ≤ data.length := by omega
  have h2 : ¬ 72 ≤ data.length := by omega
  simp [handle_user_wrq, h1, h2]

/-- Witness for `C7_short_user_wrq_ok` at a concrete 2-byte payload. -/
theorem C7_short_user_wrq_ok_witness :
    handle_user_wrq (initState 0 "0.0.0.0") 3 4 [1, 2] =
      (initState 0 "0.0.0.0", create_header CMD_ACK_OK 3 4 []) :=
  C7_short_user_wrq_ok (initState 0 "0.0.0.0") 3 4 [1, 2] (by decide)

/-- **C8 (counterexample).** The claim says GET USERTEMP answers with a DATA
frame whose payload is the template's blob; the code appends six zero bytes
after the blob, so on a state holding the one-byte blob `[0xAB]` the response
differs from a DATA frame carrying just the blob. -/
theorem C8_counterexample :
    (handle_get_usertemp oneTemplateState 0 0 [1, 0, 0]).2 =
      create_header CMD_DATA 0 0 ([171] ++ List.replicate 6 0) ∧
    create_header CMD_DATA 0 0 ([171] ++ List.replicate 6 0) ≠
      create_header CMD_DATA 0 0 [171] := by decide

/-- **C8 (amended).** For every GET USERTEMP request with a payload of at
least 3 bytes `{uid:2, finger:1}`: if a template with key (uid, finger) is
found, the response is a DATA frame whose payload is that template's blob
followed by six zero bytes; otherwise the response is ERROR. -/
theorem C8_get_usertemp (s : SimState) (session_id reply_id : Nat) (data : Bytes)
    (h : 3 ≤ data.length) :
    (∀ t, s.templates.find?
        (fun t => t.uid == readLE16 data 0 && t.fid == readI8 data 2) = some t →
      handle_get_usertemp s session_id reply_id data =
        (s, create_header CMD_DATA session_id reply_id (t.tmpl ++ List.replicate 6 0))) ∧
    (s.templates.find?
        (fun t => t.uid == readLE16 data 0 && t.fid == readI8 data 2) = none →
      handle_get_usertemp s session_id reply_id data =
        (s, create_header CMD_ACK_ERROR session_id reply_id [])) := by
  constructor
  · intro t ht
    simp [handle_get_usertemp, h, ht]
  · intro ht
    simp [handle_get_usertemp, h, ht]

/-- Witness for `C8_get_usertemp`: the found case at the one-template state. -/
theorem C8_get_usertemp_witness :
    handle_get_usertemp oneTemplateState 0 0 [1, 0, 0] =
      (oneTemplateState, create_header CMD_DATA 0 0 ([171] ++ List.replicate 6 0)) :=
  (C8_get_usertemp oneTemplateState 0 0 [1, 0, 0] (by decide)).1 ⟨1, 0, 1, [171]⟩ (by decide)

/-- **C9.** `decode_time` is partial over 32-bit inputs: the 4-byte value
5184000 decodes to day 30 of February 2000, on which the `datetime`
constructor raises; consequently SET TIME with that payload raises inside
`handle_set_time` (and `handle_packet`) instead of answering OK. -/
theorem C9_decode_time_raises :
    decode_time 5184000 = none ∧
    handle_set_time (initState 0 "0.0.0.0") 0 0 (le32 5184000) = none ∧
    handle_packet (initState 0 "0.0.0.0") ⟨2020, 1, 1, 0, 0, 0⟩
      (create_tcp_top (create_header 202 0 0 (le32 5184000))) = none := by decide

/-- **C2 (counterexample).** The claim says every reachable state, including
the initial one, has counts equal to its collection lengths; the constructor
sets `fingers_count = 5` and `records_count = 150` while both backing lists
start empty. -/
theorem C2_counterexample :
    (initState 0 "0.0.0.0").fingers_count = 5 ∧
    (initState 0 "0.0.0.0").templates.length = 0 ∧
    (initState 0 "0.0.0.0").records_count = 150 ∧
    (initState 0 "0.0.0.0").attendance_records.length = 0 ∧
    (5 : Nat) ≠ 0 ∧ (150 : Nat) ≠ 0 := by decide

/-! ### C2: counts versus collection lengths -/

/-- The users-count invariant, phrased over an optional handler result. -/
def PU (o : Option (SimState × Bytes)) : Prop :=
  ∀ s1 resp, o = some (s1, resp) → s1.users_count = s1.users.length

lemma PU_ite (c : Prop) [Decidable c] (a b : Option (SimState × Bytes))
    (ha : PU a) (hb : PU b) : PU (if c then a else b) := by
  split <;> assumption

lemma PU_some (p : SimState × Bytes) (h : p.1.users_count = p.1.users.length) :
    PU (some p) := by
  intro s1 resp he
  obtain rfl : p = (s1, resp) := Option.some.inj he
  exact h

set_option maxHeartbeats 1000000 in
set_option maxRecDepth 4000 in
/-- Every dispatched handler leaves `users_count = length users` intact:
mutating handlers recompute the count as `len(users)`, the rest do not touch
either field. -/
lemma dispatch_users (s : SimState) (now : DateTime) (c sid rid : Nat) (d : Bytes)
    (hs : s.users_count = s.users.length) : PU (dispatch s now c sid rid d) := by
  unfold dispatch
  repeat' apply PU_ite
  all_goals first
    | exact PU_some _ hs
    | (intro s1 resp he
       rcases hdec : decode_time (readLE32 d 0) with _ | v
       · rw [hdec] at he
         cases he
       · rw [hdec] at he
         injection (Option.some.inj he) with h3 h4
         exact h3 ▸ hs)
    | exact PU_some _ (by
        simp only [handle_connect, handle_reg_event, handle_prepare_buffer, handle_user_wrq,
          handle_delete_user, handle_delete_usertemp, handle_get_usertemp, handle_start_enroll,
          handle_prepare_data, handle_read_buffer, handle_save_usertemps]
        repeat' split
        all_goals first | rfl | exact hs)

lemma handle_packet_users (s : SimState) (now : DateTime) (pkt : Bytes) (s1 : SimState)
    (r : Option Bytes) (h : handle_packet s now pkt = some (s1, r))
    (hs : s.users_count = s.users.length) : s1.users_count = s1.users.length := by
  unfold handle_packet at h
  rcases hp : parse_tcp pkt with _ | ⟨c, sid, rid, d⟩
  · rw [hp] at h
    injection h with h2
    injection h2 with h3 h4
    exact h3 ▸ hs
  · rw [hp] at h
    replace h : (match dispatch s now c sid rid d with
        | none => none
        | some (s', response) => some (s', some (create_tcp_top response))) =
        some (s1, r) := h
    rcases hd : dispatch s now c sid rid d with _ | ⟨s2, resp⟩
    · rw [hd] at h
      cases h
    · rw [hd] at h
      injection h with h2
      injection h2 with h3 h4
      exact h3 ▸ dispatch_users s now c sid rid d hs s2 resp hd

/-- GET FREE SIZES places the three counts in fields 4, 6 and 8 of its
`'20i'` payload (bytes 16–19, 24–27, 32–35). -/
lemma free_sizes_fields (s : SimState) :
    slice (free_sizes_payload s) 16 20 = le32 (s.users_count % 4294967296) ∧
    slice (free_sizes_payload s) 24 28 = le32 (s.fingers_count % 4294967296) ∧
    slice (free_sizes_payload s) 32 36 = le32 (s.records_count % 4294967296) := by
  refine ⟨?_, ?_, ?_⟩ <;>
    (simp only [free_sizes_payload, le32i, le32, List.cons_append, List.nil_append]
     norm_num [slice]
     refine ⟨?_, ?_, ?_, ?_⟩ <;> omega)

/-- **C2 (amended).** In every reachable state the users count equals the
length of the user list, and GET FREE SIZES reports the users, fingers and
records counts in fields 4, 6 and 8 of its payload.  (The counterexample
`C2_counterexample` shows the original claim's fingers and records halves
fail in the initial state, which seeds `fingers_count = 5` and
`records_count = 150` over empty lists.) -/
theorem C2_users_count_invariant (password : Nat) (ip : String) (s : SimState)
    (h : Reach password ip s) :
    s.users_count = s.users.length ∧
    slice (free_sizes_payload s) 16 20 = le32 (s.users_count % 4294967296) ∧
    slice (free_sizes_payload s) 24 28 = le32 (s.fingers_count % 4294967296) ∧
    slice (free_sizes_payload s) 32 36 = le32 (s.records_count % 4294967296) := by
  refine ⟨?_, free_sizes_fields s⟩
  induction h with
  | init => rfl
  | step now pkt hr hp ih => exact handle_packet_users _ _ _ _ _ hp ih
  | enroll hr ih => exact ih

/-- Witness for `C2_users_count_invariant` at the initial state. -/
theorem C2_users_count_invariant_witness :
    (initState 0 "0.0.0.0").users_count = (initState 0 "0.0.0.0").users.length ∧
    slice (free_sizes_payload (initState 0 "0.0.0.0")) 16 20 =
      le32 ((initState 0 "0.0.0.0").users_count % 4294967296) ∧
    slice (free_sizes_payload (initState 0 "0.0.0.0")) 24 28 =
      le32 ((initState 0 "0.0.0.0").fingers_count % 4294967296) ∧
    slice (free_sizes_payload (initState 0 "0.0.0.0")) 32 36 =
      le32 ((initState 0 "0.0.0.0").records_count % 4294967296) :=
  C2_users_count_invariant 0 "0.0.0.0" _ Reach.init

/-- **C6.** For every device state and PREPARE BUFFER request with at least
the 11-byte `{flag:1, cmd:2, fct:4, ext:4}` tuple: `fct = 5` produces
byte-for-byte the DATA frame of USERTEMP RRQ, `fct = 2` that of DB RRQ,
`fct = 1` that of ATTLOG RRQ, and any other `fct` a DATA frame whose payload
is a 4-byte zero size. -/
theorem C6_prepare_buffer_refines (s : SimState) (session_id reply_id : Nat)
    (data : Bytes) (h : 11 ≤ data.length) :
    (readI32 data 3 = 5 →
      handle_prepare_buffer s session_id reply_id data =
        handle_usertemp_rrq s session_id reply_id) ∧
    (readI32 data 3 = 2 →
      handle_prepare_buffer s session_id reply_id data =
        handle_db_rrq s session_id reply_id) ∧
    (readI32 data 3 = 1 →
      handle_prepare_buffer s session_id reply_id data =
        handle_attlog_rrq s session_id reply_id) ∧
    (readI32 data 3 ≠ 5 → readI32 data 3 ≠ 2 → readI32 data 3 ≠ 1 →
      handle_prepare_buffer s session_id reply_id data =
        (s, create_header CMD_DATA session_id reply_id (le32 0))) := by
  refine ⟨fun h5 => ?_, fun h2 => ?_, fun h1 => ?_, fun n5 n2 n1 => ?_⟩
  · unfold handle_prepare_buffer handle_usertemp_rrq
    rw [if_pos h, if_pos h5]
    rfl
  · have n5 : readI32 data 3 ≠ 5 := by rw [h2]; decide
    unfold handle_prepare_buffer handle_db_rrq
    rw [if_pos h, if_neg n5, if_pos h2]
    rfl
  · have n5 : readI32 data 3 ≠ 5 := by rw [h1]; decide
    have n2 : readI32 data 3 ≠ 2 := by rw [h1]; decide
    unfold handle_prepare_buffer handle_attlog_rrq
    rw [if_pos h, if_neg n5, if_neg n2, if_pos h1]
    rfl
  · unfold handle_prepare_buffer
    rw [if_pos h, if_neg n5, if_neg n2, if_neg n1]

/-- Witness for `C6_prepare_buffer_refines`: the users case (`fct = 5`) at
the seeded state. -/
theorem C6_prepare_buffer_refines_witness :
    handle_prepare_buffer (initState 0 "0.0.0.0") 1 2 [1, 232, 3, 5, 0, 0, 0, 0, 0, 0, 0] =
      handle_usertemp_rrq (initState 0 "0.0.0.0") 1 2 :=
  (C6_prepare_buffer_refines (initState 0 "0.0.0.0") 1 2
    [1, 232, 3, 5, 0, 0, 0, 0, 0, 0, 0] (by decide)).1 (by decide)

/-- **C5.** Decoding recovers every well-formed packet: for 16-bit command,
session and reply identifiers, parsing the frame produced by
`create_tcp_top ∘ create_header` yields exactly the original command,
session identifier, reply identifier and payload. -/
theorem C5_frame_roundtrip (command session_id reply_id : Nat) (data : Bytes)
    (hc : command < 65536) (hs : session_id < 65536) (hr : reply_id < 65536) :
    parse_tcp (create_tcp_top (create_header command session_id reply_id data)) =
      some (command, session_id, reply_id, data) := by
  unfold create_tcp_top create_header parse_tcp
  simp only [le16, le32, List.cons_append, List.nil_append, List.append_assoc]
  norm_num [readLE16, readByte]
  refine ⟨?_, ?_, ?_⟩ <;> omega

/-- Witness for `C5_frame_roundtrip` at a concrete CONNECT-style packet. -/
theorem C5_frame_roundtrip_witness :
    parse_tcp (create_tcp_top (create_header 1000 7 9 [1, 2, 3])) =
      some (1000, 7, 9, [1, 2, 3]) :=
  C5_frame_roundtrip 1000 7 9 [1, 2, 3] (by decide) (by decide) (by decide)

/-- **C10.** In TCP mode `handle_packet` never uses the stream envelope's
4-byte length field: two incoming frames that agree except on bytes 4–7
produce the same optional response and the same successor state, for every
starting state. -/
theorem C10_length_field_ignored (s : SimState) (now : DateTime)
    (pre l1 l2 rest : Bytes) (hpre : pre.length = 4)
    (h1 : l1.length = 4) (h2 : l2.length = 4) :
    handle_packet s now (pre ++ l1 ++ rest) = handle_packet s now (pre ++ l2 ++ rest) := by
  have key : parse_tcp (pre ++ l1 ++ rest) = parse_tcp (pre ++ l2 ++ rest) := by
    have hl1 : (pre ++ l1).length = 8 := by simp [hpre, h1]
    have hl2 : (pre ++ l2).length = 8 := by simp [hpre, h2]
    have g1 : ∀ i, i < 4 → ((pre ++ l1) ++ rest).getD i 0 = pre.getD i 0 := by
      intro i hi
      rw [List.getD_append _ _ _ _ (by rw [hl1]; omega),
          List.getD_append _ _ _ _ (by omega)]
    have g2 : ∀ i, i < 4 → ((pre ++ l2) ++ rest).getD i 0 = pre.getD i 0 := by
      intro i hi
      rw [List.getD_append _ _ _ _ (by rw [hl2]; omega),
          List.getD_append _ _ _ _ (by omega)]
    unfold parse_tcp
    simp only [readLE16, readByte, List.length_append, hl1, hl2,
      List.drop_left' hl1, List.drop_left' hl2,
      g1 0 (by omega), g1 1 (by omega), g1 2 (by omega), g1 3 (by omega),
      g2 0 (by omega), g2 1 (by omega), g2 2 (by omega), g2 3 (by omega)]
  unfold handle_packet
  rw [key]

/-! ### C3: checksum -/

/-- Modelled from the spec (§4.1 Checksum): one step of "sum 16-bit
little-endian words … whenever the accumulator exceeds 0xFFFF, subtract
0xFFFF". -/
def specStep (acc w : Nat) : Nat :=
  if 65535 < acc + w then acc + w - 65535 else acc + w

/-- Modelled from the spec: the packet as 16-bit little-endian words, an odd
trailing byte entering as the low byte of a final word. -/
def toWords : Bytes → List Nat
  | b0 :: b1 :: rest => (b0 + 256 * b1) :: toWords rest
  | [b] => [b]
  | [] => []

/-- Modelled from the spec: the checksum as the spec's §4.1 words describe it
— fold the carry-corrected word sum, take the bitwise NOT, re-add 0xFFFF
while negative in the signed sense. -/
def spec_checksum (p : Bytes) : Nat :=
  (fixNeg (-(((toWords p).foldl specStep 0 : Nat) : Int) - 1)).toNat

/-- Modelled from the spec: checksum verification (the repository contains
only the encoder; §4.1 says real clients validate the outbound checksum):
recompute over the packet with its checksum field zeroed and compare with the
stored field. -/
def verify_checksum (p : Bytes) : Bool :=
  spec_checksum (p.take 2 ++ [0, 0] ++ p.drop 4) == readLE16 p 2

lemma foldCarryAux_of_le (fuel m : Nat) (h : m ≤ 65535) : foldCarryAux fuel m = m := by
  cases fuel with
  | zero => rfl
  | succ k => simp [foldCarryAux, Nat.not_lt.mpr h]

lemma foldCarry_of_le (m : Nat) (h : m ≤ 65535) : foldCarry m = m :=
  foldCarryAux_of_le m m h

lemma foldCarry_small (n : Nat) (h : n ≤ 131070) :
    foldCarry n = if 65535 < n then n - 65535 else n := by
  by_cases h1 : 65535 < n
  · obtain ⟨k, rfl⟩ : ∃ k, n = k + 1 := ⟨n - 1, by omega⟩
    rw [if_pos h1]
    show foldCarryAux (k + 1) (k + 1) = k + 1 - 65535
    simp only [foldCarryAux, if_pos h1]
    exact foldCarryAux_of_le _ _ (by omega)
  · rw [if_neg h1]
    exact foldCarry_of_le n (by omega)

/-- On byte-bounded input the source's carry-once-per-word loop computes the
spec's carry-folded word sum. -/
theorem sumWords_spec : ∀ (p : Bytes), (∀ b ∈ p, b < 256) → ∀ acc, acc ≤ 65535 →
    foldCarry (sumWords p acc) = (toWords p).foldl specStep acc
  | [], _, acc, hacc => by
      simp [sumWords, toWords, foldCarry_of_le acc hacc]
  | [b], hb, acc, hacc => by
      have hb' : b < 256 := hb b (by simp)
      simp only [sumWords, toWords, List.foldl]
      rw [foldCarry_small (acc + b) (by omega)]
      rfl
  | b0 :: b1 :: rest, hb, acc, hacc => by
      have hrest : ∀ b ∈ rest, b < 256 := fun b h => hb b (by simp [h])
      have h0 : b0 < 256 := hb b0 (by simp)
      have h1 : b1 < 256 := hb b1 (by simp)
      simp only [sumWords, toWords, List.foldl]
      rw [sumWords_spec rest hrest _ (by split <;> omega)]
      congr 1

lemma fixNegAux_lt (fuel : Nat) (i : Int) (h : i < 65535) : fixNegAux fuel i < 65535 := by
  induction fuel generalizing i with
  | zero => exact h
  | succ k ih =>
      simp only [fixNegAux]
      split
      · exact ih _ (by omega)
      · exact h

lemma create_checksum_val_lt (p : Bytes) : create_checksum_val p < 65536 := by
  have h := fixNegAux_lt ((-(-(foldCarry (sumWords p 0) : Int) - 1)).toNat + 1)
    (-(foldCarry (sumWords p 0) : Int) - 1) (by omega)
  unfold create_checksum_val fixNeg
  omega

lemma readLE16_le16 (n : Nat) (h : n < 65536) : readLE16 (le16 n) 0 = n := by
  simp [readLE16, readByte, le16]
  omega

lemma le16_lt (x : Nat) : ∀ b ∈ le16 x, b < 256 := by
  intro b hb'
  simp [le16] at hb'
  rcases hb' with rfl | rfl <;> omega

/-- **C3.** For every packet produced by `create_header` (16-bit fields in
range, payload made of bytes), the stored checksum field equals the spec's
one's-complement folding sum over the packet with the checksum field treated
as zero, and the encoded checksum verifies against its own packet. -/
theorem C3_header_checksum (command session_id reply_id : Nat) (data : Bytes)
    (hc : command < 65536) (hs : session_id < 65536) (hr : reply_id < 65536)
    (hb : ∀ b ∈ data, b < 256) :
    readLE16 (create_header command session_id reply_id data) 2 =
      spec_checksum ((create_header command session_id reply_id data).take 2 ++ [0, 0] ++
        (create_header command session_id reply_id data).drop 4) ∧
    verify_checksum (create_header command session_id reply_id data) = true := by
  have hbuf : ∀ b ∈ (le16 command ++ le16 0 ++ le16 session_id ++ le16 reply_id ++ data),
      b < 256 := by
    intro b hmem
    rcases List.mem_append.1 hmem with h1 | h1
    · rcases List.mem_append.1 h1 with h2 | h2
      · rcases List.mem_append.1 h2 with h3 | h3
        · rcases List.mem_append.1 h3 with h4 | h4
          · exact le16_lt _ _ h4
          · exact le16_lt _ _ h4
        · exact le16_lt _ _ h3
      · exact le16_lt _ _ h2
    · exact hb b h1
  have hzero : (create_header command session_id reply_id data).take 2 ++ [0, 0] ++
      (create_header command session_id reply_id data).drop 4 =
      le16 command ++ le16 0 ++ le16 session_id ++ le16 reply_id ++ data := by
    simp [create_header, le16]
  have hspec : spec_checksum
      (le16 command ++ le16 0 ++ le16 session_id ++ le16 reply_id ++ data) =
      create_checksum_val
        (le16 command ++ le16 0 ++ le16 session_id ++ le16 reply_id ++ data) := by
    unfold spec_checksum create_checksum_val
    rw [sumWords_spec _ hbuf 0 (by omega)]
  have hlt := create_checksum_val_lt
    (le16 command ++ le16 0 ++ le16 session_id ++ le16 reply_id ++ data)
  have hstored : readLE16 (create_header command session_id reply_id data) 2 =
      create_checksum_val
        (le16 command ++ le16 0 ++ le16 session_id ++ le16 reply_id ++ data) := by
    show readLE16
      (le16 command ++
        le16 (readLE16 (le16 (create_checksum_val
          (le16 command ++ le16 0 ++ le16 session_id ++ le16 reply_id ++ data))) 0) ++
        le16 session_id ++ le16 reply_id ++ data) 2 = _
    rw [readLE16_le16 _ hlt]
    set v := create_checksum_val
      (le16 command ++ le16 0 ++ le16 session_id ++ le16 reply_id ++ data)
    simp [readLE16, readByte, le16]
    omega
  constructor
  · rw [hstored, hzero, hspec]
  · simp only [verify_checksum, hzero, hspec, hstored, beq_iff_eq]

/-! ### C4: timestamp round-trip -/

lemma readLE32_le32 (n : Nat) (h : n < 4294967296) : readLE32 (le32 n) 0 = n := by
  simp [readLE32, readByte, le32]
  omega

lemma daysInMonth_le (y m : Nat) : daysInMonth y m ≤ 31 := by
  unfold daysInMonth
  split
  · split <;> omega
  · split <;> omega

/-- **C4.** For every valid datetime with year in [2000, 2099], decoding the
encoded 32-bit timestamp recovers it exactly. -/
theorem C4_time_roundtrip (dt : DateTime) (hv : isValidDateTime dt = true)
    (hy1 : 2000 ≤ dt.year) (hy2 : dt.year ≤ 2099) :
    decode_time (readLE32 (encode_time dt) 0) = some dt := by
  obtain ⟨y, mo, d, h, mi, se⟩ := dt
  have hv0 := hv
  have hd31 : d ≤ 31 := by
    have h1 := daysInMonth_le y mo
    simp [isValidDateTime] at hv
    omega
  simp only [isValidDateTime, Bool.and_eq_true, decide_eq_true_eq] at hv
  obtain ⟨⟨⟨⟨⟨⟨⟨⟨hy, _⟩, hm1⟩, hm2⟩, hd1⟩, hd2⟩, hh⟩, hmi⟩, hse⟩ := hv
  simp only at hy1 hy2
  have hbound : encode_time_val ⟨y, mo, d, h, mi, se⟩ < 4294967296 := by
    unfold encode_time_val
    simp only
    omega
  show decode_time (readLE32 (le32 (encode_time_val ⟨y, mo, d, h, mi, se⟩)) 0) = _
  rw [readLE32_le32 _ hbound]
  have hval : encode_time_val ⟨y, mo, d, h, mi, se⟩ =
      (y % 100 * 12 * 31 + (mo - 1) * 31 + d - 1) * (24 * 60 * 60) +
        (h * 60 + mi) * 60 + se := rfl
  rw [hval]
  simp only [decode_time]
  set t := (y % 100 * 12 * 31 + (mo - 1) * 31 + d - 1) * (24 * 60 * 60) +
    (h * 60 + mi) * 60 + se with ht
  have key : (⟨t / 60 / 60 / 24 / 31 / 12 + 2000, t / 60 / 60 / 24 / 31 % 12 + 1,
      t / 60 / 60 / 24 % 31 + 1, t / 60 / 60 % 24, t / 60 % 60, t % 60⟩ : DateTime) =
      ⟨y, mo, d, h, mi, se⟩ := by
    simp only [DateTime.mk.injEq]
    refine ⟨?_, ?_, ?_, ?_, ?_, ?_⟩ <;> (rw [ht]; omega)
  rw [key, if_pos hv0]

/-- Witness for `C4_time_roundtrip` at the leap-day instant
2024-02-29 23:59:59. -/
theorem C4_time_roundtrip_witness :
    decode_time (readLE32 (encode_time ⟨2024, 2, 29, 23, 59, 59⟩) 0) =
      some ⟨2024, 2, 29, 23, 59, 59⟩ :=
  C4_time_roundtrip ⟨2024, 2, 29, 23, 59, 59⟩ (by decide) (by decide) (by decide)

/-- Witness for `C3_header_checksum` at a concrete packet. -/
theorem C3_header_checksum_witness :
    readLE16 (create_header 2000 1 2 [7, 8, 9]) 2 =
      spec_checksum ((create_header 2000 1 2 [7, 8, 9]).take 2 ++ [0, 0] ++
        (create_header 2000 1 2 [7, 8, 9]).drop 4) ∧
    verify_checksum (create_header 2000 1 2 [7, 8, 9]) = true :=
  C3_header_checksum 2000 1 2 [7, 8, 9] (by decide) (by decide) (by decide) (by decide)

/-- Witness for `C10_length_field_ignored`: a valid CONNECT frame with a
correct and with a corrupted length field. -/
theorem C10_length_field_ignored_witness :
    handle_packet (initState 0 "0.0.0.0") ⟨2020, 1, 1, 0, 0, 0⟩
        ([80, 80, 130, 125] ++ [8, 0, 0, 0] ++ create_header 1000 0 0 []) =
      handle_packet (initState 0 "0.0.0.0") ⟨2020, 1, 1, 0, 0, 0⟩
        ([80, 80, 130, 125] ++ [255, 255, 255, 255] ++ create_header 1000 0 0 []) :=
  C10_length_field_ignored (initState 0 "0.0.0.0") ⟨2020, 1, 1, 0, 0, 0⟩
    [80, 80, 130, 125] [8, 0, 0, 0] [255, 255, 255, 255] (create_header 1000 0 0 [])
    (by decide) (by decide) (by decide)

end ZKSim
